import Mathlib

/-!
Shallow embedding of `ResilienceOptions.validate_resilience_options` from
`qiskit_ibm_runtime/options/resilience_options.py`, together with theorems
settling the specification claims about it.

The validator receives a Python dict of option overrides, emits a deprecation
notice when `noise_amplifier` is set, and then runs four checks in order:
a key allow-list check, a `noise_amplifier` value check, an `extrapolator`
value check, and a cross-field minimum-length check on `noise_factors`.
-/

set_option autoImplicit false

/-- An element of a Python sequence, as far as this validator can observe
one: the validator never reads sequence elements, only lengths, so scalar
elements suffice. -/
inductive PyScalar where
  | none
  | str (s : String)
  | int (n : Int)
  | bool (b : Bool)
  deriving DecidableEq, Repr

/-- A Python value, as far as this validator can observe one: the override
dict binds strings to strings, numbers, booleans, `None`, or sequences. -/
inductive PyValue where
  | none
  | str (s : String)
  | int (n : Int)
  | bool (b : Bool)
  | list (xs : List PyScalar)
  deriving DecidableEq, Repr

/-- Python truthiness, as used by the `or` in
`resilience_options.get("noise_amplifier") or "TwoQubitAmplifier"`:
`None`, the empty string, zero, `False` and the empty list are falsy. -/
def PyValue.truthy : PyValue → Bool
  | .none => false
  | .str s => !(s == "")
  | .int n => !(n == 0)
  | .bool b => b
  | .list xs => !xs.isEmpty

/-- Python `len(v)`: defined for sequences (strings and lists), and a
`TypeError` (modelled as `Option.none`) on every other value, in particular
on `None`. -/
def PyValue.pyLen : PyValue → Option Nat
  | .str s => some s.length
  | .list xs => some xs.length
  | _ => Option.none

/-- Python `a or b`: `a` when `a` is truthy, else `b`. -/
def pyOr (a b : PyValue) : PyValue := if a.truthy then a else b

/-- Python `v in tup` for a tuple of string literals (the result of
`get_args` on one of the `Literal` aliases): true exactly when `v` is a
string equal to one of them; a non-string value never equals a string. -/
def pyInStrTuple (v : PyValue) (xs : List String) : Bool :=
  match v with
  | .str s => xs.contains s
  | _ => false

/-- A Python dict with string keys, as an association list in insertion
order (a real dict has each key at most once; nothing below depends on
duplicates). Iteration order is list order, as for a Python dict. -/
abbrev PyDict := List (String × PyValue)

/-- `d.get(k)` (equally `d.get(k, None)`): the bound value, or `None` when
the key is absent. An explicit `None` binding and an absent key are
indistinguishable through this accessor, exactly as in the source. -/
def PyDict.getPy (d : PyDict) (k : String) : PyValue :=
  match d.find? (fun p => p.1 == k) with
  | some p => p.2
  | Option.none => PyValue.none

/-- The keys of the dict, in iteration order. -/
def PyDict.keys (d : PyDict) : List String := d.map Prod.fst

/-- `get_args(ResilienceSupportedOptions)`. -/
def ResilienceSupportedOptions : List String :=
  ["noise_amplifier", "noise_factors", "extrapolator"]

/-- `get_args(NoiseAmplifierType)`. -/
def NoiseAmplifierType : List String :=
  ["TwoQubitAmplifier", "GlobalFoldingAmplifier", "LocalFoldingAmplifier",
   "CxAmplifier"]

/-- `get_args(ExtrapolatorType)`. -/
def ExtrapolatorType : List String :=
  ["LinearExtrapolator", "QuadraticExtrapolator", "CubicExtrapolator",
   "QuarticExtrapolator"]

/-- The errors the validator can raise. The source raises `ValueError`
with an interpolated message; each constructor keeps the data the message
interpolates (the offending key, or the offending value together with the
list of supported values, or the extrapolator name with its required
minimum). `typeError` is the untyped `TypeError` escaping from
`len(None)`. -/
inductive PyErr where
  | unsupportedOption (key : String)
  | unsupportedValue (field : String) (value : PyValue) (supported : List String)
  | insufficientNoiseFactors (extrapolator : String) (required : Nat)
  | typeError
  deriving DecidableEq, Repr

/-- The outcome of a call: Python `None` return (acceptance) or a raised
error. -/
inductive VResult where
  | ok
  | raised (e : PyErr)
  deriving DecidableEq, Repr

/-- The `for opt in resilience_options` loop raises on the first key that
is not in `get_args(ResilienceSupportedOptions)`. -/
def firstUnsupportedKey (ro : PyDict) : Option String :=
  ro.keys.find? (fun k => !(ResilienceSupportedOptions.contains k))

/-- The quartic and cubic minimum-length checks, lines 104-110 of the
source. The two `if ... and len(...) < _` statements short-circuit: `len`
is only evaluated when the extrapolator matches, and at most one of the
two guards can match since the extrapolator is a single value, so the
first matching branch decides the outcome. -/
def crossFieldChecks (extrapolator noise_factors : PyValue) : VResult :=
  if extrapolator = PyValue.str "QuarticExtrapolator" then
    match noise_factors.pyLen with
    | Option.none => .raised .typeError
    | some n =>
      if n < 5 then .raised (.insufficientNoiseFactors "QuarticExtrapolator" 5)
      else .ok
  else if extrapolator = PyValue.str "CubicExtrapolator" then
    match noise_factors.pyLen with
    | Option.none => .raised .typeError
    | some n =>
      if n < 4 then .raised (.insufficientNoiseFactors "CubicExtrapolator" 4)
      else .ok
  else .ok

/-- Lines 92-110 of the source: the `noise_amplifier` value check (with the
`or "TwoQubitAmplifier"` fallback), the `extrapolator` value check (no
fallback: the raw `get` result is tested), then the cross-field checks. -/
def valueChecks (ro : PyDict) : VResult :=
  let noise_amplifier :=
    pyOr (ro.getPy "noise_amplifier") (PyValue.str "TwoQubitAmplifier")
  if !(pyInStrTuple noise_amplifier NoiseAmplifierType) then
    .raised (.unsupportedValue "noise_amplifier" noise_amplifier NoiseAmplifierType)
  else
    let extrapolator := ro.getPy "extrapolator"
    if !(pyInStrTuple extrapolator ExtrapolatorType) then
      .raised (.unsupportedValue "extrapolator" extrapolator ExtrapolatorType)
    else
      crossFieldChecks extrapolator (ro.getPy "noise_factors")

/-- A whole run of the validator: how many deprecation notices
`issue_deprecation_msg` emitted, and the outcome. -/
structure ValidationRun where
  deprecations : Nat
  result : VResult
  deriving DecidableEq, Repr

/-- `ResilienceOptions.validate_resilience_options`. The deprecation notice
fires first, when `resilience_options.get("noise_amplifier", None) is not
None`, before any check and independently of the outcome; then the key
loop, then the value and cross-field checks. Every dict operation the
source performs (`get`, key iteration, `len`, `==`, `or`) is a read, so
the run is a pure function of the dict. -/
def validate_resilience_options (ro : PyDict) : ValidationRun :=
  ⟨if ro.getPy "noise_amplifier" = PyValue.none then 0 else 1,
   match firstUnsupportedKey ro with
   | some k => .raised (.unsupportedOption k)
   | Option.none => valueChecks ro⟩

/-- The post-state of the dict after a run, paired with the run: the source
performs no mutating operation on its argument, so the post-state is the
argument itself. -/
def validate_resilience_options_run (ro : PyDict) : PyDict × ValidationRun :=
  (ro, validate_resilience_options ro)

/-! ### Helper lemmas shared by the claim theorems -/

theorem pyIn_linear :
    pyInStrTuple (PyValue.str "LinearExtrapolator") ExtrapolatorType = true := by decide

theorem pyIn_quadratic :
    pyInStrTuple (PyValue.str "QuadraticExtrapolator") ExtrapolatorType = true := by decide

theorem pyIn_cubic :
    pyInStrTuple (PyValue.str "CubicExtrapolator") ExtrapolatorType = true := by decide

theorem pyIn_quartic :
    pyInStrTuple (PyValue.str "QuarticExtrapolator") ExtrapolatorType = true := by decide

/-- The cross-field checks can only produce `ok`, a `TypeError`, or an
`InsufficientNoiseFactorsError`; never an unsupported-option error. -/
theorem crossFieldChecks_ne_unsupportedOption (e nf : PyValue) (k : String) :
    crossFieldChecks e nf ≠ .raised (.unsupportedOption k) := by
  unfold crossFieldChecks
  repeat' split
  all_goals simp

/-- The cross-field checks never produce an unsupported-value error. -/
theorem crossFieldChecks_ne_unsupportedValue (e nf : PyValue) (f : String)
    (v : PyValue) (sup : List String) :
    crossFieldChecks e nf ≠ .raised (.unsupportedValue f v sup) := by
  unfold crossFieldChecks
  repeat' split
  all_goals simp

/-- The value and cross-field checks never produce an unsupported-option
error: that error only comes from the key loop. -/
theorem valueChecks_ne_unsupportedOption (ro : PyDict) (k : String) :
    valueChecks ro ≠ .raised (.unsupportedOption k) := by
  simp only [valueChecks]
  split
  · simp
  · split
    · simp
    · exact crossFieldChecks_ne_unsupportedOption _ _ _

/-! ### Claim theorems -/

/-- C1: for every override mapping that passes the key allow-list and
noise_amplifier checks and whose `extrapolator` entry is absent or bound
to a value outside the four-value enum, `validate_resilience_options`
raises the extrapolator `UnsupportedValueError`, carrying the offending
raw value (in particular `None` when the key is absent: no fallback to the
default "LinearExtrapolator") and the list of the four legal values. -/
theorem extrapolator_check_fails_when_absent_or_invalid (m : PyDict)
    (h1 : firstUnsupportedKey m = Option.none)
    (h2 : pyInStrTuple (pyOr (m.getPy "noise_amplifier") (PyValue.str "TwoQubitAmplifier"))
        NoiseAmplifierType = true)
    (h3 : pyInStrTuple (m.getPy "extrapolator") ExtrapolatorType = false) :
    (validate_resilience_options m).result =
      .raised (.unsupportedValue "extrapolator" (m.getPy "extrapolator") ExtrapolatorType) := by
  simp [validate_resilience_options, h1, valueChecks, h2, h3]

/-- C1 witness: an override mapping with `extrapolator` absent fails with
the extrapolator `UnsupportedValueError` carrying `None`, not the default. -/
theorem extrapolator_check_fails_witness :
    (validate_resilience_options
      [("noise_factors", PyValue.list [.int 1, .int 3, .int 5])]).result =
      .raised (.unsupportedValue "extrapolator" PyValue.none ExtrapolatorType) :=
  extrapolator_check_fails_when_absent_or_invalid
    [("noise_factors", PyValue.list [.int 1, .int 3, .int 5])]
    (by decide) (by decide) (by decide)

/-- C2 counterexample: the empty override mapping does not validate. -/
theorem empty_overrides_do_not_validate :
    (validate_resilience_options []).result ≠ VResult.ok := by decide

/-- C2 amended: the empty override mapping fails with the extrapolator
`UnsupportedValueError` carrying `None` (the validator reads `extrapolator`
directly from the overrides with no default fallback), and emits no
deprecation notice. -/
theorem empty_overrides_raise_unsupported_extrapolator :
    validate_resilience_options [] =
      ⟨0, .raised (.unsupportedValue "extrapolator" PyValue.none ExtrapolatorType)⟩ := by
  decide

/-- C3 counterexample: the empty string is present and non-null, and is
outside the noise-amplifier enum, yet validation succeeds: the `or`
fallback in the source tests Python truthiness, not nullity, so a falsy
supplied value is silently replaced by the default "TwoQubitAmplifier"
(while still triggering the deprecation notice, which tests `is not None`). -/
theorem falsy_noise_amplifier_not_rejected :
    (PyValue.str "" ≠ PyValue.none) ∧
    pyInStrTuple (PyValue.str "") NoiseAmplifierType = false ∧
    validate_resilience_options
      [("noise_amplifier", PyValue.str ""),
       ("extrapolator", PyValue.str "LinearExtrapolator")] = ⟨1, .ok⟩ := by
  decide

/-- C3 amended: given the key allow-list check passes, the effective
noise_amplifier is the supplied value exactly when it is truthy (falsy
values, including the absent-key `None` and the empty string, fall back to
the default "TwoQubitAmplifier"), and validation raises the
noise_amplifier `UnsupportedValueError` listing the four legal values if
and only if this resolved value is outside the enum; in particular an
absent noise_amplifier never triggers this error. -/
theorem noise_amplifier_check_resolved_truthy (m : PyDict)
    (h1 : firstUnsupportedKey m = Option.none) :
    pyInStrTuple (pyOr (m.getPy "noise_amplifier") (PyValue.str "TwoQubitAmplifier"))
        NoiseAmplifierType = false ↔
      (validate_resilience_options m).result =
        .raised (.unsupportedValue "noise_amplifier"
          (pyOr (m.getPy "noise_amplifier") (PyValue.str "TwoQubitAmplifier"))
          NoiseAmplifierType) := by
  cases hb : pyInStrTuple (pyOr (m.getPy "noise_amplifier") (PyValue.str "TwoQubitAmplifier"))
      NoiseAmplifierType with
  | false =>
    simp [validate_resilience_options, h1, valueChecks, hb]
  | true =>
    simp only [validate_resilience_options, h1, valueChecks, hb, Bool.not_true,
      Bool.false_eq_true, if_false]
    simp only [Bool.true_eq_false, false_iff]
    split
    · simp
    · exact crossFieldChecks_ne_unsupportedValue _ _ _ _ _

/-- C3 amended witness: a truthy out-of-enum noise_amplifier is rejected
with the noise_amplifier `UnsupportedValueError`. -/
theorem noise_amplifier_check_resolved_truthy_witness :
    (validate_resilience_options [("noise_amplifier", PyValue.str "Bogus")]).result =
      .raised (.unsupportedValue "noise_amplifier" (PyValue.str "Bogus")
        NoiseAmplifierType) :=
  (noise_amplifier_check_resolved_truthy
    [("noise_amplifier", PyValue.str "Bogus")] (by decide)).mp (by decide)

/-- C4: validation raises an unsupported-option error exactly when the
override mapping has a key outside
{noise_amplifier, noise_factors, extrapolator}, and any raised
unsupported-option error names an offending key of the mapping; mappings
whose keys all lie in the allow-list never trigger this error. -/
theorem unsupported_key_check_iff (m : PyDict) :
    ((∃ k ∈ m.keys, ResilienceSupportedOptions.contains k = false) ↔
      ∃ k, (validate_resilience_options m).result = .raised (.unsupportedOption k)) ∧
    ∀ k, (validate_resilience_options m).result = .raised (.unsupportedOption k) →
      k ∈ m.keys ∧ ResilienceSupportedOptions.contains k = false := by
  cases hfind : firstUnsupportedKey m with
  | none =>
    have hall : ∀ x ∈ m.keys, ¬(!ResilienceSupportedOptions.contains x) = true := by
      have h := hfind
      simp only [firstUnsupportedKey, List.find?_eq_none] at h
      exact h
    have hres : (validate_resilience_options m).result = valueChecks m := by
      simp [validate_resilience_options, hfind]
    constructor
    · constructor
      · rintro ⟨k, hk, hbad⟩
        exact absurd (by simp only [hbad, Bool.not_false]) (hall k hk)
      · rintro ⟨k, hk⟩
        rw [hres] at hk
        exact absurd hk (valueChecks_ne_unsupportedOption m k)
    · intro k hk
      rw [hres] at hk
      exact absurd hk (valueChecks_ne_unsupportedOption m k)
  | some k0 =>
    have hfind2 : m.keys.find? (fun k => !(ResilienceSupportedOptions.contains k)) = some k0 := by
      have h := hfind
      simp only [firstUnsupportedKey] at h
      exact h
    have hmem : k0 ∈ m.keys := List.mem_of_find?_eq_some hfind2
    have hp := List.find?_some hfind2
    simp only [] at hp
    have hbad : ResilienceSupportedOptions.contains k0 = false := by
      cases hcb : ResilienceSupportedOptions.contains k0
      · rfl
      · rw [hcb] at hp
        exact absurd hp (by decide)
    have hres : (validate_resilience_options m).result = .raised (.unsupportedOption k0) := by
      simp [validate_resilience_options, hfind]
    constructor
    · constructor
      · intro _
        exact ⟨k0, hres⟩
      · intro _
        exact ⟨k0, hmem, hbad⟩
    · intro k hk
      rw [hres] at hk
      obtain rfl : k0 = k := by simpa using hk
      exact ⟨hmem, hbad⟩

/-- C4 witness: the mapping binding only the key "foo" has its error name
"foo", a key of the mapping outside the allow-list. -/
theorem unsupported_key_check_iff_witness :
    "foo" ∈ PyDict.keys [("foo", PyValue.int 1)] ∧
    ResilienceSupportedOptions.contains "foo" = false :=
  (unsupported_key_check_iff [("foo", PyValue.int 1)]).2 "foo" (by decide)

/-- C5: for every override mapping that passes the key allow-list and
noise_amplifier checks, with extrapolator "QuarticExtrapolator" and a
supplied noise_factors sequence, validation raises the quartic
`InsufficientNoiseFactorsError` when the sequence has fewer than 5
elements, and succeeds when it has at least 5. -/
theorem quartic_min_noise_factors (m : PyDict) (xs : List PyScalar)
    (h1 : firstUnsupportedKey m = Option.none)
    (h2 : pyInStrTuple (pyOr (m.getPy "noise_amplifier") (PyValue.str "TwoQubitAmplifier"))
        NoiseAmplifierType = true)
    (h3 : m.getPy "extrapolator" = PyValue.str "QuarticExtrapolator")
    (h4 : m.getPy "noise_factors" = PyValue.list xs) :
    (xs.length < 5 →
      (validate_resilience_options m).result =
        .raised (.insufficientNoiseFactors "QuarticExtrapolator" 5)) ∧
    (5 ≤ xs.length → (validate_resilience_options m).result = VResult.ok) := by
  have hres : (validate_resilience_options m).result =
      crossFieldChecks (PyValue.str "QuarticExtrapolator") (PyValue.list xs) := by
    simp [validate_resilience_options, h1, valueChecks, h2, h3, h4, pyIn_quartic]
  rw [hres]
  unfold crossFieldChecks
  simp only [if_pos rfl, PyValue.pyLen]
  constructor
  · intro h
    simp [h]
  · intro h
    simp [Nat.not_lt.mpr h]

/-- C5 witness: quartic extrapolation with three noise factors fails with
the quartic `InsufficientNoiseFactorsError`. -/
theorem quartic_min_noise_factors_witness :
    (validate_resilience_options
      [("extrapolator", PyValue.str "QuarticExtrapolator"),
       ("noise_factors", PyValue.list [.int 1, .int 2, .int 3])]).result =
      .raised (.insufficientNoiseFactors "QuarticExtrapolator" 5) :=
  (quartic_min_noise_factors
    [("extrapolator", PyValue.str "QuarticExtrapolator"),
     ("noise_factors", PyValue.list [.int 1, .int 2, .int 3])]
    [.int 1, .int 2, .int 3]
    (by decide) (by decide) (by decide) (by decide)).1 (by decide)

/-- C6: for every override mapping that passes the key allow-list and
noise_amplifier checks, with extrapolator "CubicExtrapolator" and a
supplied noise_factors sequence, validation raises the cubic
`InsufficientNoiseFactorsError` when the sequence has fewer than 4
elements, and succeeds when it has at least 4. -/
theorem cubic_min_noise_factors (m : PyDict) (xs : List PyScalar)
    (h1 : firstUnsupportedKey m = Option.none)
    (h2 : pyInStrTuple (pyOr (m.getPy "noise_amplifier") (PyValue.str "TwoQubitAmplifier"))
        NoiseAmplifierType = true)
    (h3 : m.getPy "extrapolator" = PyValue.str "CubicExtrapolator")
    (h4 : m.getPy "noise_factors" = PyValue.list xs) :
    (xs.length < 4 →
      (validate_resilience_options m).result =
        .raised (.insufficientNoiseFactors "CubicExtrapolator" 4)) ∧
    (4 ≤ xs.length → (validate_resilience_options m).result = VResult.ok) := by
  have hres : (validate_resilience_options m).result =
      crossFieldChecks (PyValue.str "CubicExtrapolator") (PyValue.list xs) := by
    simp [validate_resilience_options, h1, valueChecks, h2, h3, h4, pyIn_cubic]
  rw [hres]
  unfold crossFieldChecks
  simp only [PyValue.pyLen]
  constructor
  · intro h
    simp [h]
  · intro h
    simp [Nat.not_lt.mpr h]

/-- C6 witness: cubic extrapolation with the four noise factors 1, 2, 3, 4
validates successfully, with no error raised. -/
theorem cubic_min_noise_factors_witness :
    (validate_resilience_options
      [("extrapolator", PyValue.str "CubicExtrapolator"),
       ("noise_factors", PyValue.list [.int 1, .int 2, .int 3, .int 4])]).result =
      VResult.ok :=
  (cubic_min_noise_factors
    [("extrapolator", PyValue.str "CubicExtrapolator"),
     ("noise_factors", PyValue.list [.int 1, .int 2, .int 3, .int 4])]
    [.int 1, .int 2, .int 3, .int 4]
    (by decide) (by decide) (by decide) (by decide)).2 (by decide)

/-- C7: exactly one deprecation notice is emitted when the noise_amplifier
entry is non-null, and none when it is absent or null; the count does not
depend on the outcome of any check (the emission precedes them all and
never itself fails validation). -/
theorem deprecation_emitted_iff_noise_amplifier_set (m : PyDict) :
    (m.getPy "noise_amplifier" ≠ PyValue.none →
      (validate_resilience_options m).deprecations = 1) ∧
    (m.getPy "noise_amplifier" = PyValue.none →
      (validate_resilience_options m).deprecations = 0) := by
  constructor
  · intro h
    simp [validate_resilience_options, h]
  · intro h
    simp [validate_resilience_options, h]

/-- C7 witness: an invalid non-null noise_amplifier still triggers exactly
one emission even though validation then fails. -/
theorem deprecation_emitted_witness :
    (validate_resilience_options [("noise_amplifier", PyValue.str "Bogus")]).deprecations = 1 ∧
    (validate_resilience_options [("noise_amplifier", PyValue.str "Bogus")]).result ≠
      VResult.ok :=
  ⟨(deprecation_emitted_iff_noise_amplifier_set
      [("noise_amplifier", PyValue.str "Bogus")]).1 (by decide),
   by decide⟩

/-- C8: for every override mapping that passes the key allow-list and
noise_amplifier checks, with extrapolator "QuarticExtrapolator" or
"CubicExtrapolator" and no noise_factors entry, the length check applies
`len` to `None` and so raises an untyped `TypeError`, not any of the three
declared validation errors. -/
theorem missing_noise_factors_type_error (m : PyDict)
    (h1 : firstUnsupportedKey m = Option.none)
    (h2 : pyInStrTuple (pyOr (m.getPy "noise_amplifier") (PyValue.str "TwoQubitAmplifier"))
        NoiseAmplifierType = true)
    (h3 : m.getPy "extrapolator" = PyValue.str "QuarticExtrapolator" ∨
        m.getPy "extrapolator" = PyValue.str "CubicExtrapolator")
    (h4 : m.getPy "noise_factors" = PyValue.none) :
    (validate_resilience_options m).result = .raised PyErr.typeError ∧
    (∀ k, (validate_resilience_options m).result ≠ .raised (.unsupportedOption k)) ∧
    (∀ f v sup, (validate_resilience_options m).result ≠
      .raised (.unsupportedValue f v sup)) ∧
    (∀ e r, (validate_resilience_options m).result ≠
      .raised (.insufficientNoiseFactors e r)) := by
  have hmain : (validate_resilience_options m).result = .raised PyErr.typeError := by
    cases h3 with
    | inl h3 =>
      simp [validate_resilience_options, h1, valueChecks, h2, h3, h4, pyIn_quartic,
        crossFieldChecks, PyValue.pyLen]
    | inr h3 =>
      simp [validate_resilience_options, h1, valueChecks, h2, h3, h4, pyIn_cubic,
        crossFieldChecks, PyValue.pyLen]
  refine ⟨hmain, ?_, ?_, ?_⟩ <;> intros <;> rw [hmain] <;> simp

/-- C8 witness: cubic extrapolation with noise_factors absent raises the
`TypeError`, not an `InsufficientNoiseFactorsError`. -/
theorem missing_noise_factors_type_error_witness :
    (validate_resilience_options
      [("extrapolator", PyValue.str "CubicExtrapolator")]).result =
      .raised PyErr.typeError :=
  (missing_noise_factors_type_error
    [("extrapolator", PyValue.str "CubicExtrapolator")]
    (by decide) (by decide) (Or.inr (by decide)) (by decide)).1

/-- C9: for every override mapping that passes the key allow-list and
noise_amplifier checks with extrapolator "LinearExtrapolator" or
"QuadraticExtrapolator", validation succeeds with no constraint at all on
the noise_factors binding (the mapping is universally quantified, so the
entry may equally be absent, null, a non-sequence, or any sequence): the
validator reads noise_factors only through `len`, and only when the
extrapolator is cubic or quartic. -/
theorem linear_quadratic_ignore_noise_factors (m : PyDict)
    (h1 : firstUnsupportedKey m = Option.none)
    (h2 : pyInStrTuple (pyOr (m.getPy "noise_amplifier") (PyValue.str "TwoQubitAmplifier"))
        NoiseAmplifierType = true)
    (h3 : m.getPy "extrapolator" = PyValue.str "LinearExtrapolator" ∨
        m.getPy "extrapolator" = PyValue.str "QuadraticExtrapolator") :
    (validate_resilience_options m).result = VResult.ok := by
  cases h3 with
  | inl h3 =>
    simp [validate_resilience_options, h1, valueChecks, h2, h3, pyIn_linear,
      crossFieldChecks]
  | inr h3 =>
    simp [validate_resilience_options, h1, valueChecks, h2, h3, pyIn_quadratic,
      crossFieldChecks]

/-- C9 witness: a linear extrapolator validates even with a non-sequence
noise_factors value. -/
theorem linear_quadratic_ignore_noise_factors_witness :
    (validate_resilience_options
      [("extrapolator", PyValue.str "LinearExtrapolator"),
       ("noise_factors", PyValue.int 7)]).result = VResult.ok :=
  linear_quadratic_ignore_noise_factors
    [("extrapolator", PyValue.str "LinearExtrapolator"),
     ("noise_factors", PyValue.int 7)]
    (by decide) (by decide) (Or.inl (by decide))

/-- C10: the validator is a pure pass over the mapping: the post-state of
the dict equals the input (every dict operation the source performs is a
read), equal mappings yield equal runs, at most one deprecation notice is
emitted, and the outcome is exactly an acceptance carrying no data or a
single raised error, with no partially merged configuration produced. -/
theorem validate_pure_deterministic_atomic (m : PyDict) :
    (validate_resilience_options_run m).1 = m ∧
    (∀ m2 : PyDict, m = m2 →
      validate_resilience_options m = validate_resilience_options m2) ∧
    (validate_resilience_options m).deprecations ≤ 1 ∧
    ((validate_resilience_options m).result = VResult.ok ∨
      ∃ e, (validate_resilience_options m).result = VResult.raised e) := by
  refine ⟨rfl, fun m2 h => by rw [h], ?_, ?_⟩
  · unfold validate_resilience_options
    dsimp only
    split <;> simp
  · cases h : (validate_resilience_options m).result with
    | ok => exact Or.inl rfl
    | raised e => exact Or.inr ⟨e, rfl⟩

/-- C10 witness: the run on a concrete mapping equals itself as the
determinism conjunct states, and its deprecation count is at most one. -/
theorem validate_pure_deterministic_atomic_witness :
    validate_resilience_options [("extrapolator", PyValue.str "LinearExtrapolator")] =
      validate_resilience_options [("extrapolator", PyValue.str "LinearExtrapolator")] ∧
    (validate_resilience_options
      [("extrapolator", PyValue.str "LinearExtrapolator")]).deprecations ≤ 1 :=
  ⟨(validate_pure_deterministic_atomic
      [("extrapolator", PyValue.str "LinearExtrapolator")]).2.1
    [("extrapolator", PyValue.str "LinearExtrapolator")] rfl,
   (validate_pure_deterministic_atomic
      [("extrapolator", PyValue.str "LinearExtrapolator")]).2.2.1⟩
